import Mathlib

/-!
Verification of the Anonymous Submission Ledger and Correlation Engine
(repository file src/hirayabot.py) against its natural-language
specification.

The Python program keeps its whole state in one JSON-backed dictionary
(DATA) plus a separate in-memory pending-image table (PENDING_IMAGE).
We embed that state shallowly:

* Python dicts become association lists (List (key, value)); dict
  assignment, lookup and pop become setA, lookupA and delA below, which
  preserve insertion order exactly as CPython dicts do.
* The upvote and downvote fields are stored by the program as JSON
  lists but are manipulated exclusively through Python set operations
  (set(...), add, remove, discard); we model them as the finite sets
  they denote (Finset Nat).
* Timestamps (datetime.utcnow().timestamp()) are modelled as Nat
  seconds; only their ordering and the fixed 1800 second TTL matter.
* Handlers that await external Discord calls are modelled as pure
  functions taking the outcome of the external call as an argument
  (for example, the result of channel.send is an Option of a message
  id: none models the call raising an exception).
-/

/-- Association-list lookup: Python dict .get. -/
def lookupA {κ α : Type} [DecidableEq κ] (k : κ) : List (κ × α) → Option α
  | [] => none
  | (k', v) :: rest => if k' = k then some v else lookupA k rest

/-- Association-list update: Python dict assignment d[k] = v
(replaces in place, appends when absent — CPython insertion order). -/
def setA {κ α : Type} [DecidableEq κ] (k : κ) (v : α) : List (κ × α) → List (κ × α)
  | [] => [(k, v)]
  | (k', v') :: rest => if k' = k then (k, v) :: rest else (k', v') :: setA k v rest

/-- Association-list removal: Python dict .pop(k, None). -/
def delA {κ α : Type} [DecidableEq κ] (k : κ) : List (κ × α) → List (κ × α)
  | [] => []
  | (k', v) :: rest => if k' = k then delA k rest else (k', v) :: delA k rest

theorem lookupA_setA_self {κ α : Type} [DecidableEq κ] (k : κ) (v : α)
    (l : List (κ × α)) : lookupA k (setA k v l) = some v := by
  induction l with
  | nil => simp [setA, lookupA]
  | cons p rest ih =>
    by_cases h : p.1 = k
    · simp [setA, h, lookupA]
    · simp [setA, h, lookupA, ih]

theorem lookupA_delA_self {κ α : Type} [DecidableEq κ] (k : κ)
    (l : List (κ × α)) : lookupA k (delA k l) = none := by
  induction l with
  | nil => simp [delA, lookupA]
  | cons p rest ih =>
    by_cases h : p.1 = k
    · simp [delA, h, ih]
    · simp [delA, h, lookupA, ih]

/-!  ## Vote aggregator (SuggestionView._vote, src/hirayabot.py lines 613-632)

The handler reads the stored vote lists into Python sets and mutates:

    if up:
        if uid in upvotes: upvotes.remove(uid)
        else: upvotes.add(uid); downvotes.discard(uid)
    else:
        if uid in downvotes: downvotes.remove(uid)
        else: downvotes.add(uid); upvotes.discard(uid)
-/

/-- One vote toggle on the pair of voter sets, exactly as in
SuggestionView._vote. -/
def toggleVote (up : Bool) (uid : Nat) (uvs dvs : Finset Nat) :
    Finset Nat × Finset Nat :=
  if up then
    if uid ∈ uvs then (uvs.erase uid, dvs)
    else (insert uid uvs, dvs.erase uid)
  else
    if uid ∈ dvs then (uvs, dvs.erase uid)
    else (uvs.erase uid, insert uid dvs)

/-- A sequence of vote toggles (each element is direction, user). -/
def toggleMany (ops : List (Bool × Nat)) (s : Finset Nat × Finset Nat) :
    Finset Nat × Finset Nat :=
  ops.foldl (fun t op => toggleVote op.1 op.2 t.1 t.2) s

theorem toggleVote_exclusive (up : Bool) (uid : Nat) (U D : Finset Nat)
    (h : ∀ v, v ∈ U → v ∉ D) :
    ∀ v, v ∈ (toggleVote up uid U D).1 → v ∉ (toggleVote up uid U D).2 := by
  intro v
  cases up with
  | true =>
    by_cases hm : uid ∈ U
    · simp only [toggleVote, if_pos hm, if_pos rfl]
      intro hv
      exact h v (Finset.mem_of_mem_erase hv)
    · simp only [toggleVote, if_neg hm, if_pos rfl]
      intro hv
      rcases Finset.mem_insert.mp hv with rfl | hvU
      · intro hc; exact (Finset.mem_erase.mp hc).1 rfl
      · intro hc; exact h v hvU (Finset.mem_of_mem_erase hc)
  | false =>
    by_cases hm : uid ∈ D
    · simp only [toggleVote, if_pos hm]
      intro hv hc
      exact h v hv (Finset.mem_of_mem_erase hc)
    · simp only [toggleVote, if_neg hm]
      intro hv hc
      rcases Finset.mem_insert.mp hc with rfl | hvD
      · exact (Finset.mem_erase.mp hv).1 rfl
      · exact h v (Finset.mem_of_mem_erase hv) hvD

theorem toggleMany_exclusive (ops : List (Bool × Nat)) :
    ∀ s : Finset Nat × Finset Nat, (∀ v, v ∈ s.1 → v ∉ s.2) →
      ∀ v, v ∈ (toggleMany ops s).1 → v ∉ (toggleMany ops s).2 := by
  induction ops with
  | nil => intro s h; exact h
  | cons op rest ih =>
    intro s h
    have hstep := toggleVote_exclusive op.1 op.2 s.1 s.2 h
    exact ih (toggleVote op.1 op.2 s.1 s.2) hstep

/-!  ## Data model (the DATA dictionary, src/hirayabot.py lines 26-35)

Record shapes are taken field for field from the dictionaries the
program builds (ConfessionModal.on_submit lines 191-203,
ReplyModal.on_submit lines 267-272, SuggestionModal.on_submit lines
425-439, get_guild_cfg / set_guild_cfg lines 63-70).
-/

structure Reply where
  content : String
  timestamp : String
  user_id : Nat
  username : String
deriving DecidableEq

structure Confession where
  content : String
  user_id : Nat
  username : String
  account_created : String
  timestamp : String
  message_id : Nat
  channel_id : Nat
  guild_id : Nat
  jump_url : String
  thread_id : Option Nat
  replies : List Reply
deriving DecidableEq

structure Suggestion where
  guild_id : Nat
  title : String
  content : String
  status : String
  user_id : Nat
  username : String
  timestamp : String
  message_id : Nat
  channel_id : Nat
  jump_url : String
  image_url : Option String
  upvotes : Finset Nat
  downvotes : Finset Nat
deriving DecidableEq

structure GuildConfig where
  confession_channel_id : Option Nat
  suggestion_channel_id : Option Nat
  log_channel_id : Option Nat
deriving DecidableEq

/-- An unset guild configuration ({} from get_guild_cfg). -/
def gcEmpty : GuildConfig := ⟨none, none, none⟩

/-- The whole persisted state, one field per key of _default_data. -/
structure Data where
  confession_count : Nat
  confessions : List (Nat × Confession)
  message_to_confession : List (Nat × Nat)
  suggestion_count : Nat
  suggestions : List (Nat × Suggestion)
  message_to_suggestion : List (Nat × Nat)
  guild_config : List (Nat × GuildConfig)
deriving DecidableEq

/-- _default_data (src/hirayabot.py lines 26-35). -/
def default_data : Data :=
  { confession_count := 0
    confessions := []
    message_to_confession := []
    suggestion_count := 0
    suggestions := []
    message_to_suggestion := []
    guild_config := [] }

/-!  ## Durable store (load_data / save_data_atomic, lines 38-57)

The on-disk snapshot is modelled at the level of the parsed JSON
document.  The outer Option is whether the file exists
(os.path.exists); the inner Option is whether json.load succeeds and
yields a dictionary (any exception in the try block, including a
non-dict top level making setdefault raise, lands in the except branch
and returns the defaults).  SnapshotDoc has one optional field per key
of _default_data, since load_data fills missing keys with setdefault;
the guild_config value can additionally be present but not a dict, the
one shape load_data repairs explicitly (line 46-47).  The JSON text
layer itself (json.dump then json.load) is the identity on these
document values and is not re-modelled.
-/

/-- The raw guild_config value found in a parsed snapshot. -/
inductive GCRaw where
  | dict (m : List (Nat × GuildConfig))
  | notDict
deriving DecidableEq

/-- A parsed snapshot document: every key optional. -/
structure SnapshotDoc where
  confession_count : Option Nat
  confessions : Option (List (Nat × Confession))
  message_to_confession : Option (List (Nat × Nat))
  suggestion_count : Option Nat
  suggestions : Option (List (Nat × Suggestion))
  message_to_suggestion : Option (List (Nat × Nat))
  guild_config : Option GCRaw
deriving DecidableEq

/-- load_data (src/hirayabot.py lines 38-50).  none: the snapshot file
does not exist; some none: reading or parsing raised; some (some doc):
a dictionary was parsed, missing keys are filled from _default_data
and a non-dict guild_config is replaced by an empty dict. -/
def load_data (snapshot : Option (Option SnapshotDoc)) : Data :=
  match snapshot with
  | none => default_data
  | some none => default_data
  | some (some doc) =>
    { confession_count := doc.confession_count.getD default_data.confession_count
      confessions := doc.confessions.getD default_data.confessions
      message_to_confession :=
        doc.message_to_confession.getD default_data.message_to_confession
      suggestion_count := doc.suggestion_count.getD default_data.suggestion_count
      suggestions := doc.suggestions.getD default_data.suggestions
      message_to_suggestion :=
        doc.message_to_suggestion.getD default_data.message_to_suggestion
      guild_config :=
        match doc.guild_config with
        | some (.dict m) => m
        | some .notDict => []
        | none => [] }

/-- save_data_atomic (lines 53-57) serializes the full state; the
document written (and later re-parsed) carries every key. -/
def save_doc (d : Data) : SnapshotDoc :=
  { confession_count := some d.confession_count
    confessions := some d.confessions
    message_to_confession := some d.message_to_confession
    suggestion_count := some d.suggestion_count
    suggestions := some d.suggestions
    message_to_suggestion := some d.message_to_suggestion
    guild_config := some (.dict d.guild_config) }

/-!  ## Pending correlation table (lines 21-23 and 108-141)

PENDING_IMAGE is a dict keyed by (guild_id, suggestion_message_id);
PENDING_IMAGE_TTL_SECONDS = 60 * 30 = 1800.
-/

structure PendingEntry where
  guild_id : Nat
  channel_id : Nat
  message_id : Nat
  user_id : Nat
  created_at : Nat
  expires_at : Nat
deriving DecidableEq

abbrev PendTable : Type := List ((Nat × Nat) × PendingEntry)

def pending_ttl : Nat := 60 * 30

/-- _set_pending_image (lines 116-125): upsert keyed by
(guild, suggestion message), expiry = now + TTL. -/
def set_pending_image (now g chan msgId uid : Nat) (t : PendTable) : PendTable :=
  setA (g, msgId)
    { guild_id := g, channel_id := chan, message_id := msgId,
      user_id := uid, created_at := now, expires_at := now + pending_ttl } t

/-- _clear_pending_image (lines 128-130). -/
def clear_pending_image (g msgId : Nat) (t : PendTable) : PendTable :=
  delA (g, msgId) t

/-- _clean_expired_pending (lines 108-113): drop every entry with
expires_at <= now. -/
def clean_expired (now : Nat) (t : PendTable) : PendTable :=
  t.filter (fun p => decide (now < p.2.expires_at))

/-- CPython list.sort(key=created_at, reverse=True) is a stable
descending sort; insertion from the left placing each element after
all entries with a key not below its own reproduces it. -/
def insertByCreated (e : PendingEntry) : List PendingEntry → List PendingEntry
  | [] => [e]
  | x :: xs =>
    if x.created_at < e.created_at then e :: x :: xs
    else x :: insertByCreated e xs

def sortByCreatedDesc (l : List PendingEntry) : List PendingEntry :=
  l.foldl (fun acc e => insertByCreated e acc) []

/-- The per-user filter of _find_pending_for_user (lines 136-139):
key guild component equals the guild, channel and user fields match. -/
def pending_matches (now g chan uid : Nat) (t : PendTable) : List PendingEntry :=
  ((clean_expired now t).filter
      (fun p => decide (p.1.1 = g ∧ p.2.channel_id = chan ∧ p.2.user_id = uid))).map
    Prod.snd

/-- _find_pending_for_user (lines 133-141): reap, filter, sort by
created_at descending. -/
def find_pending_for_user (now g chan uid : Nat) (t : PendTable) :
    List PendingEntry :=
  sortByCreatedDesc (pending_matches now g chan uid t)

theorem mem_insertByCreated {x e : PendingEntry} {l : List PendingEntry} :
    x ∈ insertByCreated e l ↔ x = e ∨ x ∈ l := by
  induction l with
  | nil => simp [insertByCreated]
  | cons y ys ih =>
    by_cases h : y.created_at < e.created_at
    · simp only [insertByCreated, if_pos h, List.mem_cons]
    · simp only [insertByCreated, if_neg h, List.mem_cons, ih]
      tauto

/-- The head of a list is a maximal element by created_at. -/
def headMax (l : List PendingEntry) : Prop :=
  ∀ e, l.head? = some e → ∀ x ∈ l, x.created_at ≤ e.created_at

theorem headMax_nil : headMax [] := by
  intro e he x hx
  simp at he

theorem headMax_insertByCreated {l : List PendingEntry} (e : PendingEntry)
    (h : headMax l) : headMax (insertByCreated e l) := by
  cases l with
  | nil =>
    intro f hf x hx
    simp [insertByCreated] at hf hx
    subst hf
    subst hx
    exact le_refl _
  | cons y ys =>
    by_cases hlt : y.created_at < e.created_at
    · intro f hf x hx
      simp only [insertByCreated, if_pos hlt] at hf hx
      simp only [List.head?_cons, Option.some.injEq] at hf
      subst hf
      rcases List.mem_cons.mp hx with rfl | hx2
      · exact le_refl _
      · exact le_trans (h y rfl x hx2) (le_of_lt hlt)
    · intro f hf x hx
      simp only [insertByCreated, if_neg hlt] at hf hx
      simp only [List.head?_cons, Option.some.injEq] at hf
      subst hf
      rcases List.mem_cons.mp hx with rfl | hx2
      · exact le_refl _
      · rcases mem_insertByCreated.mp hx2 with rfl | hx3
        · exact le_of_not_lt hlt
        · exact h y rfl x (List.mem_cons_of_mem y hx3)

theorem sortAux_mem (l : List PendingEntry) :
    ∀ (acc : List PendingEntry) (x : PendingEntry),
      x ∈ l.foldl (fun a e => insertByCreated e a) acc ↔ x ∈ acc ∨ x ∈ l := by
  induction l with
  | nil => intro acc x; simp
  | cons y ys ih =>
    intro acc x
    simp only [List.foldl_cons]
    rw [ih, mem_insertByCreated]
    simp [List.mem_cons]
    tauto

theorem sortAux_headMax (l : List PendingEntry) :
    ∀ acc : List PendingEntry, headMax acc →
      headMax (l.foldl (fun a e => insertByCreated e a) acc) := by
  induction l with
  | nil => intro acc h; exact h
  | cons y ys ih =>
    intro acc h
    simp only [List.foldl_cons]
    exact ih _ (headMax_insertByCreated y h)

theorem mem_sortByCreatedDesc {x : PendingEntry} {l : List PendingEntry} :
    x ∈ sortByCreatedDesc l ↔ x ∈ l := by
  unfold sortByCreatedDesc
  rw [sortAux_mem]
  simp

/-- The head of the stable descending sort belongs to the input and
carries a maximal created_at. -/
theorem sortByCreatedDesc_head_spec (l : List PendingEntry) (e : PendingEntry)
    (h : (sortByCreatedDesc l).head? = some e) :
    e ∈ l ∧ ∀ x ∈ l, x.created_at ≤ e.created_at := by
  have hmax : headMax (sortByCreatedDesc l) := by
    unfold sortByCreatedDesc
    exact sortAux_headMax l [] headMax_nil
  have he_mem : e ∈ sortByCreatedDesc l := by
    cases hs : sortByCreatedDesc l with
    | nil => rw [hs] at h; simp at h
    | cons a as =>
      rw [hs] at h
      simp only [List.head?_cons, Option.some.injEq] at h
      subst h
      exact List.mem_cons_self a as
  refine ⟨mem_sortByCreatedDesc.mp he_mem, fun x hx => ?_⟩
  exact hmax e h x (mem_sortByCreatedDesc.mpr hx)

theorem sortByCreatedDesc_ne_nil {l : List PendingEntry} (h : l ≠ []) :
    sortByCreatedDesc l ≠ [] := by
  cases l with
  | nil => exact absurd rfl h
  | cons y ys =>
    intro hc
    have hy : y ∈ sortByCreatedDesc (y :: ys) :=
      mem_sortByCreatedDesc.mpr (List.mem_cons_self y ys)
    rw [hc] at hy
    simp at hy

/-!  ## Incoming-image resolution (on_message, src/hirayabot.py lines 711-727)

After _clean_expired_pending, an explicit Discord reply to the
suggestion message is tried first (lines 715-721: the referenced id is
looked up in PENDING_IMAGE under (guild, ref) and must match the
posting user and channel); otherwise the most recent pending request
of the poster in that channel is used (lines 723-727).
-/

/-- The explicit-reference branch (lines 715-721). -/
def explicit_hit (now g chan uid : Nat) (ref? : Option Nat) (t : PendTable) :
    Option Nat :=
  match ref? with
  | none => none
  | some r =>
    match lookupA (g, r) (clean_expired now t) with
    | none => none
    | some e => if e.user_id = uid ∧ e.channel_id = chan then some r else none

/-- The full resolution order of on_message (lines 711-727): reap,
explicit reference, then most recent pending request of the poster. -/
def matchIncoming (now g chan uid : Nat) (ref? : Option Nat) (t : PendTable) :
    Option Nat :=
  match explicit_hit now g chan uid ref? t with
  | some r => some r
  | none =>
    match (find_pending_for_user now g chan uid t).head? with
    | none => none
    | some e => some e.message_id

/-- Outcome of the image-attachment stage of on_message. -/
inductive AttachResult where
  | noTarget
  | staleCleared
  | attached (sid : Nat)
deriving DecidableEq

/-- The image-attachment stage of on_message (lines 711-751): resolve
a target suggestion message; on an index or record miss clear the
pending entry and stop; otherwise store the attachment url in the
suggestion record and clear the pending entry. -/
def on_message_image (now g chan uid : Nat) (ref? : Option Nat) (url : String)
    (st : Data) (t : PendTable) : AttachResult × Data × PendTable :=
  match matchIncoming now g chan uid ref? t with
  | none => (.noTarget, st, clean_expired now t)
  | some target =>
    match lookupA target st.message_to_suggestion with
    | none => (.staleCleared, st, delA (g, target) (clean_expired now t))
    | some sid =>
      match lookupA sid st.suggestions with
      | none => (.staleCleared, st, delA (g, target) (clean_expired now t))
      | some rec =>
        (.attached sid,
          { st with
            suggestions :=
              setA sid { rec with image_url := some url } st.suggestions },
          delA (g, target) (clean_expired now t))

/-- When resolution misses, on_message returns before touching the
ledger; the pending table keeps only the reap of expired entries. -/
theorem on_message_image_none (now g chan uid : Nat) (ref? : Option Nat)
    (url : String) (st : Data) (t : PendTable)
    (hm : matchIncoming now g chan uid ref? t = none) :
    on_message_image now g chan uid ref? url st t
      = (.noTarget, st, clean_expired now t) := by
  unfold on_message_image
  rw [hm]

/-- When resolution finds a target, on_message proceeds by the nested
index and record lookups. -/
theorem on_message_image_some (now g chan uid : Nat) (ref? : Option Nat)
    (url : String) (st : Data) (t : PendTable) (target : Nat)
    (hm : matchIncoming now g chan uid ref? t = some target) :
    on_message_image now g chan uid ref? url st t
      = match lookupA target st.message_to_suggestion with
        | none => (.staleCleared, st, delA (g, target) (clean_expired now t))
        | some sid =>
          match lookupA sid st.suggestions with
          | none => (.staleCleared, st, delA (g, target) (clean_expired now t))
          | some rec =>
            (.attached sid,
              { st with
                suggestions :=
                  setA sid { rec with image_url := some url } st.suggestions },
              delA (g, target) (clean_expired now t)) := by
  unfold on_message_image
  rw [hm]

/-!  ## Confession submission (ConfessionModal.on_submit, lines 153-226)

Two-phase creation: the counter is incremented under the lock (lines
176-178), then the external post is awaited without the lock (line
188), then the record and the index entry are written and persisted
(lines 190-205).  The text argument is the already sanitized input
(escape_mentions(...).strip() on line 172 — text sanitization is an
external collaborator in the specification), so the emptiness guard of
line 173 is the check on it.  The argument postResult is the outcome of
confession_channel.send: some (messageId, jumpUrl) on success, none
when the call raises (in which case the Python coroutine propagates
the exception with the counter already incremented and no record,
index entry or rollback).
-/

inductive SubmitResult where
  | notConfigured
  | channelMissing
  | emptyText
  | postFailed (allocated : Nat)
  | posted (cid : Nat)
deriving DecidableEq

def submit_confession (st : Data) (g : Nat) (cfgChan : Option Nat)
    (channelExists : Bool) (text : String) (author : Nat)
    (username acct ts : String) (postResult : Option (Nat × String)) :
    SubmitResult × Data :=
  match cfgChan with
  | none => (.notConfigured, st)
  | some chan =>
    if channelExists then
      if text = "" then (.emptyText, st)
      else
        let cid := st.confession_count + 1
        let st1 := { st with confession_count := cid }
        match postResult with
        | none => (.postFailed cid, st1)
        | some (mid, url) =>
          (.posted cid,
            { st1 with
              confessions :=
                setA cid
                  { content := text, user_id := author, username := username,
                    account_created := acct, timestamp := ts, message_id := mid,
                    channel_id := chan, guild_id := g, jump_url := url,
                    thread_id := none, replies := [] } st1.confessions,
              message_to_confession := setA mid cid st1.message_to_confession })
    else (.channelMissing, st)

/-!  ## Status select (SuggestionStatusSelect.callback, lines 479-522)

The moderation check runs first (line 480); the suggestion id comes
from the message index, falling back to the id parsed from the embed
title (lines 487-494); the chosen value is one of the four fixed
select options (lines 465-470).  When the id resolves but no record
exists, line 517 skips the store update and line 522 still reports
success.
-/

inductive StatusResult where
  | modsOnly
  | cantDetect
  | success
deriving DecidableEq

/-- The four values offered by the select component (lines 465-470). -/
def status_options : List String :=
  ["pending", "approved", "denied", "implemented"]

def status_callback (isMod : Bool) (indexSid : Option Nat)
    (titleSid : Option Nat) (newStatus : String)
    (tbl : List (Nat × Suggestion)) : StatusResult × List (Nat × Suggestion) :=
  if isMod then
    match (match indexSid with | some s => some s | none => titleSid) with
    | none => (.cantDetect, tbl)
    | some sid =>
      match lookupA sid tbl with
      | none => (.success, tbl)
      | some rec => (.success, setA sid { rec with status := newStatus } tbl)
  else (.modsOnly, tbl)

/-!  ## Vote handler (SuggestionView._vote, lines 593-652)

Resolution: message index first, then the id parsed from the embed
title (lines 599-604), then the record lookup (lines 609-611), then
the toggle, the writeback and the returned tallies (lines 613-635).
-/

inductive VoteResult where
  | cantDetect
  | notFound
  | ok (upCount downCount : Nat)
deriving DecidableEq

def vote_handler (indexSid : Option Nat) (titleSid : Option Nat) (uid : Nat)
    (up : Bool) (tbl : List (Nat × Suggestion)) :
    VoteResult × List (Nat × Suggestion) :=
  match (match indexSid with | some s => some s | none => titleSid) with
  | none => (.cantDetect, tbl)
  | some sid =>
    match lookupA sid tbl with
    | none => (.notFound, tbl)
    | some rec =>
      let p := toggleVote up uid rec.upvotes rec.downvotes
      (.ok p.1.card p.2.card,
        setA sid { rec with upvotes := p.1, downvotes := p.2 } tbl)

/-!  ## Reply button resolution (ConfessionPersistentView.reply, lines 347-364)

The confession id comes from the message index, falling back to the
id parsed from the embed title. -/

def reply_button_resolve (indexCid : Option Nat) (titleCid : Option Nat) :
    Option Nat :=
  match indexCid with
  | some c => some c
  | none => titleCid

/-!  ## Attach-image button (SuggestionView.attach_image, lines 538-563)

The suggestion id is taken from the message index only (line 546);
the embed-title id, although present on the message, is never
consulted, so titleSid is an ignored argument here.  On success the
pending entry is registered with the user id stored in the suggestion
record (line 562: rec.get("user_id")), not the id of the pressing
user.
-/

inductive AttachReqResult where
  | cantDetect
  | notAllowed
  | wrongChannel
  | pendingSet
deriving DecidableEq

def attach_image_button (now g msgId chanId : Nat) (_titleSid : Option Nat)
    (presser : Nat) (presserIsMod : Bool) (st : Data) (t : PendTable) :
    AttachReqResult × PendTable :=
  match lookupA msgId st.message_to_suggestion with
  | none => (.cantDetect, t)
  | some sid =>
    match lookupA sid st.suggestions with
    | none => (.cantDetect, t)
    | some rec =>
      if rec.user_id = presser ∨ presserIsMod = true then
        match ((lookupA g st.guild_config).getD gcEmpty).suggestion_channel_id with
        | none => (.wrongChannel, t)
        | some sc =>
          if sc = chanId then
            (.pendingSet, set_pending_image now g chanId msgId rec.user_id t)
          else (.wrongChannel, t)
      else (.notAllowed, t)

/-!  # Claim theorems -/

/-- C1 (amended): for every direction and user, toggleVote removes the
user from the set matching the direction when already present there,
and otherwise adds the user to that set while removing it from the
opposite set in the same mutation; after any sequence of toggles
starting from a state in which no user is in both sets, a user appears
in at most one of the two sets; and two successive toggles in the same
direction restore the prior vote state PROVIDED the user was not in
the opposite set beforehand (without that proviso the pair is not
self-inverse: see the counterexample). -/
theorem C1_toggleVote_semantics :
    (∀ (up : Bool) (uid : Nat) (U D : Finset Nat),
        (up = true → uid ∈ U → toggleVote up uid U D = (U.erase uid, D)) ∧
        (up = true → uid ∉ U →
          toggleVote up uid U D = (insert uid U, D.erase uid)) ∧
        (up = false → uid ∈ D → toggleVote up uid U D = (U, D.erase uid)) ∧
        (up = false → uid ∉ D →
          toggleVote up uid U D = (U.erase uid, insert uid D))) ∧
    (∀ (ops : List (Bool × Nat)) (U D : Finset Nat),
        (∀ v, v ∈ U → v ∉ D) →
        ∀ v, v ∈ (toggleMany ops (U, D)).1 → v ∉ (toggleMany ops (U, D)).2) ∧
    (∀ (up : Bool) (uid : Nat) (U D : Finset Nat),
        uid ∉ (if up then D else U) →
        toggleMany [(up, uid), (up, uid)] (U, D) = (U, D)) := by
  refine ⟨?_, ?_, ?_⟩
  · intro up uid U D
    refine ⟨?_, ?_, ?_, ?_⟩
    · intro hup hm; subst hup; simp [toggleVote, hm]
    · intro hup hm; subst hup; simp [toggleVote, hm]
    · intro hup hm; subst hup; simp [toggleVote, hm]
    · intro hup hm; subst hup; simp [toggleVote, hm]
  · intro ops U D h
    exact toggleMany_exclusive ops (U, D) h
  · intro up uid U D h
    cases up with
    | true =>
      have hD : uid ∉ D := by simpa using h
      by_cases hm : uid ∈ U
      · have hstep : toggleMany [(true, uid), (true, uid)] (U, D)
            = toggleVote true uid (U.erase uid) D := by
          simp [toggleMany, toggleVote, hm]
        rw [hstep]
        simp [toggleVote, Finset.not_mem_erase, Finset.insert_erase hm,
          Finset.erase_eq_of_not_mem hD]
      · have hstep : toggleMany [(true, uid), (true, uid)] (U, D)
            = toggleVote true uid (insert uid U) (D.erase uid) := by
          simp [toggleMany, toggleVote, hm]
        rw [hstep]
        simp [toggleVote, Finset.mem_insert_self, Finset.erase_insert hm,
          Finset.erase_eq_of_not_mem hD]
    | false =>
      have hU : uid ∉ U := by simpa using h
      by_cases hm : uid ∈ D
      · have hstep : toggleMany [(false, uid), (false, uid)] (U, D)
            = toggleVote false uid U (D.erase uid) := by
          simp [toggleMany, toggleVote, hm]
        rw [hstep]
        simp [toggleVote, Finset.not_mem_erase, Finset.insert_erase hm,
          Finset.erase_eq_of_not_mem hU]
      · have hstep : toggleMany [(false, uid), (false, uid)] (U, D)
            = toggleVote false uid (U.erase uid) (insert uid D) := by
          simp [toggleMany, toggleVote, hm]
        rw [hstep]
        simp [toggleVote, Finset.mem_insert_self, Finset.erase_insert hm,
          Finset.erase_eq_of_not_mem hU]

/-- C1 counterexample: the state with user 5 only in the downvote set
is reachable by a single down toggle from the empty state, and two
successive up toggles by user 5 do NOT restore it (they end with both
sets empty, erasing the downvote), so the unconditional self-inverse
part of the claim fails on the code. -/
theorem C1_double_toggle_counterexample :
    toggleVote false 5 ∅ ∅ = ((∅ : Finset Nat), ({5} : Finset Nat)) ∧
    toggleMany [(true, 5), (true, 5)] ((∅ : Finset Nat), ({5} : Finset Nat))
      ≠ ((∅ : Finset Nat), ({5} : Finset Nat)) := by
  constructor
  · decide
  · decide

/-- C1 witness: the amended theorem applied at concrete inputs. -/
theorem C1_toggleVote_semantics_witness :
    5 ∉ (toggleMany [(true, 7), (false, 2)] (({5} : Finset Nat), ∅)).2 ∧
    toggleMany [(true, 7), (true, 7)] (({1, 2} : Finset Nat), ({3} : Finset Nat))
      = (({1, 2} : Finset Nat), ({3} : Finset Nat)) := by
  constructor
  · exact C1_toggleVote_semantics.2.1 [(true, 7), (false, 2)] {5} ∅
      (fun v _ => Finset.not_mem_empty v) 5 (by decide)
  · exact C1_toggleVote_semantics.2.2 true 7 {1, 2} {3} (by decide)

/-- C2: the code allocates the identifier before the external post and
does not roll it back when the post fails.  From the empty state, a
submission whose external post raises leaves confession_count = 1 with
no record and no index entry (nothing rolled back, nothing marked),
and the next successful submission returns id 2, so identifier 1 is
permanently skipped — contradicting the claim that failed posts are
rolled back and that returned identifiers have no gaps. -/
theorem C2_failed_post_leaks_identifier :
    submit_confession default_data 1 (some 10) true "hello" 5 "u"
        "2020-01-01" "t" none
      = (.postFailed 1, { default_data with confession_count := 1 }) ∧
    (submit_confession { default_data with confession_count := 1 } 1 (some 10)
        true "world" 6 "v" "2020-01-01" "t" (some (100, "url"))).1
      = .posted 2 := by
  constructor
  · decide
  · decide

/-- C6: load_data returns the default empty state both when the
snapshot file is missing and when reading or parsing it raises; as a
total Lean function it cannot raise, mirroring that every failure path
of the Python loader is caught and replaced by the defaults. -/
theorem C6_load_defaults_on_missing_or_corrupt :
    load_data none = default_data ∧ load_data (some none) = default_data :=
  ⟨rfl, rfl⟩

/-- C7: persisting any state and loading the resulting snapshot
document yields the same state: every key is written by
save_data_atomic, so the setdefault pass of load_data changes nothing
and the guild_config dictionary check keeps the stored table. -/
theorem C7_persist_load_roundtrip (d : Data) :
    load_data (some (some (save_doc d))) = d := rfl

/-- C3: incoming-image resolution order.  After reaping expired
entries: an explicit reference to a pending suggestion message whose
stored user and channel match the poster is returned directly
(explicit reference wins); otherwise, among the unexpired entries
matching (community, channel, user), the result is absent when there
are none and is the target of an entry whose creation time is maximal
(the most recently created) when there are some. -/
theorem C3_matchIncoming_resolution :
    (∀ (now g chan uid r : Nat) (t : PendTable) (e : PendingEntry),
        lookupA (g, r) (clean_expired now t) = some e →
        e.user_id = uid → e.channel_id = chan →
        matchIncoming now g chan uid (some r) t = some r) ∧
    (∀ (now g chan uid : Nat) (ref? : Option Nat) (t : PendTable),
        explicit_hit now g chan uid ref? t = none →
        (pending_matches now g chan uid t = [] →
          matchIncoming now g chan uid ref? t = none) ∧
        (pending_matches now g chan uid t ≠ [] →
          ∃ e, e ∈ pending_matches now g chan uid t ∧
            matchIncoming now g chan uid ref? t = some e.message_id ∧
            ∀ x ∈ pending_matches now g chan uid t,
              x.created_at ≤ e.created_at)) := by
  constructor
  · intro now g chan uid r t e hl hu hc
    simp [matchIncoming, explicit_hit, hl, hu, hc]
  · intro now g chan uid ref? t hx
    constructor
    · intro hempty
      unfold matchIncoming
      rw [hx]
      unfold find_pending_for_user
      rw [hempty]
      rfl
    · intro hne
      obtain ⟨a, as, hs⟩ : ∃ a as,
          sortByCreatedDesc (pending_matches now g chan uid t) = a :: as := by
        cases hs : sortByCreatedDesc (pending_matches now g chan uid t) with
        | nil => exact absurd hs (sortByCreatedDesc_ne_nil hne)
        | cons a as => exact ⟨a, as, rfl⟩
      have hspec := sortByCreatedDesc_head_spec (pending_matches now g chan uid t)
        a (by rw [hs]; rfl)
      refine ⟨a, hspec.1, ?_, hspec.2⟩
      unfold matchIncoming
      rw [hx]
      unfold find_pending_for_user
      rw [hs]
      rfl

/-- A live suggestion used by the concrete scenarios below (id 7,
author 1, posted as message 70 in channel 2 of guild 9). -/
def s7 : Suggestion :=
  { guild_id := 9, title := "Add X", content := "body", status := "pending",
    user_id := 1, username := "alice", timestamp := "t0", message_id := 70,
    channel_id := 2, jump_url := "j", image_url := none,
    upvotes := ∅, downvotes := ∅ }

/-- Ledger state holding suggestion 7 with its message indexed. -/
def stC4 : Data :=
  { default_data with
    suggestions := [(7, s7)], message_to_suggestion := [(70, 7)] }

/-- Pending table after the author of suggestion 7 pressed Attach
Image at time 100. -/
def pendC4 : PendTable := set_pending_image 100 9 2 70 1 []

/-- Two pending entries of the same user in the same channel, created
at times 40 and 100. -/
def e50 : PendingEntry :=
  { guild_id := 9, channel_id := 2, message_id := 50, user_id := 3,
    created_at := 40, expires_at := 1840 }

def e60 : PendingEntry :=
  { guild_id := 9, channel_id := 2, message_id := 60, user_id := 3,
    created_at := 100, expires_at := 1900 }

def pendC3 : PendTable := [((9, 50), e50), ((9, 60), e60)]

/-- C3 witness: the resolution theorem applied at concrete inputs —
an explicit reference to message 50 wins even though the entry for 60
is newer, and an empty table resolves to absent. -/
theorem C3_matchIncoming_resolution_witness :
    matchIncoming 200 9 2 3 (some 50) pendC3 = some 50 ∧
    matchIncoming 200 9 2 3 none [] = none :=
  ⟨C3_matchIncoming_resolution.1 200 9 2 3 50 pendC3 e50 (by decide) rfl rfl,
   (C3_matchIncoming_resolution.2 200 9 2 3 none [] rfl).1 rfl⟩

/-- C4: image correlation is one-shot.  Whenever resolution finds a
target, the handler deletes the pending entry for (community, target)
from the reaped table — in the successful attach path as well as in
both miss paths — so that key is absent afterwards; and whenever
resolution finds nothing, the handler returns with the ledger
untouched and no image field set.  In the single-request scenario of
the claim, the second unrelated image therefore resolves to nothing
and changes no suggestion (see the witness). -/
theorem C4_image_attach_one_shot :
    (∀ (now g chan uid : Nat) (ref? : Option Nat) (url : String)
        (st : Data) (t : PendTable) (target : Nat),
        matchIncoming now g chan uid ref? t = some target →
        lookupA (g, target)
          (on_message_image now g chan uid ref? url st t).2.2 = none) ∧
    (∀ (now g chan uid : Nat) (ref? : Option Nat) (url : String)
        (st : Data) (t : PendTable),
        matchIncoming now g chan uid ref? t = none →
        on_message_image now g chan uid ref? url st t
          = (.noTarget, st, clean_expired now t)) := by
  constructor
  · intro now g chan uid ref? url st t target hm
    rw [on_message_image_some now g chan uid ref? url st t target hm]
    split
    · exact lookupA_delA_self (g, target) (clean_expired now t)
    · split
      · exact lookupA_delA_self (g, target) (clean_expired now t)
      · exact lookupA_delA_self (g, target) (clean_expired now t)
  · intro now g chan uid ref? url st t hm
    exact on_message_image_none now g chan uid ref? url st t hm

/-- C4 witness: the scenario of the claim.  After the author of
suggestion 7 requested an image and posted url1, the pending key is
gone; a second image from the same author with no pending entry left
is a no-op on the ledger. -/
theorem C4_image_attach_one_shot_witness :
    lookupA (9, 70) (on_message_image 200 9 2 1 none "url1" stC4 pendC4).2.2
      = none ∧
    on_message_image 200 9 2 1 none "url2" stC4 []
      = (.noTarget, stC4, clean_expired 200 []) :=
  ⟨C4_image_attach_one_shot.1 200 9 2 1 none "url1" stC4 pendC4 70 (by decide),
   C4_image_attach_one_shot.2 200 9 2 1 none "url2" stC4 [] (by decide)⟩

/-- C10: when an incoming image resolves to a target whose message id
is not in the index, or whose indexed id has no live record, the
handler clears that pending entry (consuming it) and leaves the whole
ledger state — in particular every suggestion record — unchanged. -/
theorem C10_stale_pending_consumed :
    ∀ (now g chan uid : Nat) (ref? : Option Nat) (url : String)
      (st : Data) (t : PendTable) (target : Nat),
      matchIncoming now g chan uid ref? t = some target →
      (lookupA target st.message_to_suggestion).bind
          (fun sid => lookupA sid st.suggestions) = none →
      on_message_image now g chan uid ref? url st t
        = (.staleCleared, st, delA (g, target) (clean_expired now t)) := by
  intro now g chan uid ref? url st t target hm hnone
  rw [on_message_image_some now g chan uid ref? url st t target hm]
  cases h1 : lookupA target st.message_to_suggestion with
  | none => simp only [h1]
  | some sid =>
    have h2 : lookupA sid st.suggestions = none := by
      rw [h1] at hnone
      simpa using hnone
    simp only [h1, h2]

/-- C10 witness: a pending entry pointing at message 70 while the
message index is empty — the entry is consumed, the state is kept. -/
theorem C10_stale_pending_consumed_witness :
    on_message_image 200 9 2 1 none "x" default_data pendC4
      = (.staleCleared, default_data, delA (9, 70) (clean_expired 200 pendC4)) :=
  C10_stale_pending_consumed 200 9 2 1 none "x" default_data pendC4 70
    (by decide) rfl

/-- C5 counterexample: with a moderator caller, an id that resolves
through the embed-title fallback (id 5) but has no live record, and an
empty suggestion table, the callback reports success and leaves the
table unchanged — it does not fail with NotFound as the claim states. -/
theorem C5_missing_record_reports_success :
    status_callback true none (some 5) "approved" [] = (.success, []) := rfl

/-- C5 (amended): the status callback fails mods-only when the caller
lacks the moderation capability (checked first), fails cannot-detect
when the id resolves neither through the index nor the title, and on a
resolvable id reports success: updating the stored status to newStatus
when a live record exists, and changing nothing — still reporting
success, with no NotFound failure — when it does not.  The new status
is constrained to the fixed vocabulary only by the four select options
of the component (status_options), not by any check in the callback. -/
theorem C5_setStatus_amended :
    (∀ (idx tit : Option Nat) (s : String) (tbl : List (Nat × Suggestion)),
        status_callback false idx tit s tbl = (.modsOnly, tbl)) ∧
    (∀ (s : String) (tbl : List (Nat × Suggestion)),
        status_callback true none none s tbl = (.cantDetect, tbl)) ∧
    (∀ (sid : Nat) (tit : Option Nat) (s : String)
        (tbl : List (Nat × Suggestion)),
        lookupA sid tbl = none →
        status_callback true (some sid) tit s tbl = (.success, tbl)) ∧
    (∀ (sid : Nat) (tit : Option Nat) (s : String)
        (tbl : List (Nat × Suggestion)) (rec : Suggestion),
        lookupA sid tbl = some rec →
        status_callback true (some sid) tit s tbl
          = (.success, setA sid { rec with status := s } tbl) ∧
        lookupA sid (status_callback true (some sid) tit s tbl).2
          = some { rec with status := s }) := by
  refine ⟨fun idx tit s tbl => rfl, fun s tbl => rfl, ?_, ?_⟩
  · intro sid tit s tbl h
    unfold status_callback
    simp [h]
  · intro sid tit s tbl rec h
    have hmain : status_callback true (some sid) tit s tbl
        = (.success, setA sid { rec with status := s } tbl) := by
      unfold status_callback
      simp [h]
    refine ⟨hmain, ?_⟩
    rw [hmain]
    exact lookupA_setA_self sid { rec with status := s } tbl

/-- C5 witness: the amended theorem applied at concrete inputs — a
resolvable id with no record succeeds without touching the empty
table, and a live record gets the new status stored. -/
theorem C5_setStatus_amended_witness :
    status_callback true (some 5) none "approved" [] = (.success, []) ∧
    status_callback true (some 7) none "approved" [(7, s7)]
      = (.success, setA 7 { s7 with status := "approved" } [(7, s7)]) :=
  ⟨C5_setStatus_amended.2.2.1 5 none "approved" [] rfl,
   (C5_setStatus_amended.2.2.2 7 none "approved" [(7, s7)] s7 rfl).1⟩

/-- State with suggestion 7 live but its message not in the index
(for example after the index was lost), as a fallback test bed. -/
def stNoIndex : Data := { default_data with suggestions := [(7, s7)] }

/-- C8 counterexample: the attach-image handler is invoked on the
message of suggestion 7 with the id 7 visible in the embed title
(supplied identifier), the index lookup missing; it fails with
cannot-detect instead of resolving through the supplied identifier —
while the vote handler in the same situation does resolve id 7 and
succeeds, showing the fallback exists elsewhere but not here. -/
theorem C8_attach_image_no_fallback :
    attach_image_button 0 9 70 2 (some 7) 1 false stNoIndex [] = (.cantDetect, []) ∧
    (vote_handler none (some 7) 5 true [(7, s7)]).1 = .ok 1 0 := by
  constructor
  · rfl
  · decide

/-- C8 (amended): the reply, vote and status-change handlers accept an
identifier parsed from the visible embed title as a fallback whenever
the message-index lookup misses (behaving exactly as if the identifier
had been resolved by the index), but the image-attach handler does
not: it consults only the message index and fails when that lookup
misses, whatever identifier is visible on the message. -/
theorem C8_target_resolution_amended :
    (∀ k : Nat, reply_button_resolve none (some k) = some k) ∧
    (∀ (k uid : Nat) (up : Bool) (tit : Option Nat)
        (tbl : List (Nat × Suggestion)),
        vote_handler none (some k) uid up tbl
          = vote_handler (some k) tit uid up tbl) ∧
    (∀ (k : Nat) (tit : Option Nat) (s : String)
        (tbl : List (Nat × Suggestion)),
        status_callback true none (some k) s tbl
          = status_callback true (some k) tit s tbl) ∧
    (∀ (now g msgId chanId : Nat) (tit : Option Nat) (presser : Nat)
        (isMod : Bool) (st : Data) (t : PendTable),
        lookupA msgId st.message_to_suggestion = none →
        attach_image_button now g msgId chanId tit presser isMod st t
          = (.cantDetect, t)) := by
  refine ⟨fun k => rfl, fun k uid up tit tbl => rfl,
    fun k tit s tbl => rfl, ?_⟩
  intro now g msgId chanId tit presser isMod st t h
  unfold attach_image_button
  simp only [h]

/-- C8 witness: the amended theorem applied at concrete inputs. -/
theorem C8_target_resolution_amended_witness :
    vote_handler none (some 7) 5 true [] = vote_handler (some 7) none 5 true [] ∧
    attach_image_button 0 9 70 2 (some 7) 1 false default_data [] = (.cantDetect, []) :=
  ⟨C8_target_resolution_amended.2.1 7 5 true none [],
   C8_target_resolution_amended.2.2.2 0 9 70 2 (some 7) 1 false default_data [] rfl⟩

/-- State for the image-request scenarios: suggestion 7 live and
indexed, channel 2 configured as the suggestion channel of guild 9. -/
def stC9 : Data :=
  { default_data with
    suggestions := [(7, s7)], message_to_suggestion := [(70, 7)],
    guild_config :=
      [(9, { confession_channel_id := none, suggestion_channel_id := some 2,
             log_channel_id := none })] }

/-- C9 counterexample: a moderator (user 2) who is not the author
presses Attach Image on suggestion 7 (author 1).  The registered
pending entry stores user 1 — the suggestion author — not the
requesting user 2; an image later posted by requester 2 matches
nothing, while one posted by author 1 matches, refuting the claim
that the requesting identity is stored and that the requester's image
matches. -/
theorem C9_pending_stores_author_not_requester :
    (attach_image_button 100 9 70 2 none 2 true stC9 []).1 = .pendingSet ∧
    (lookupA (9, 70) (attach_image_button 100 9 70 2 none 2 true stC9 []).2).map
        (fun e => e.user_id) = some 1 ∧
    matchIncoming 150 9 2 2 none
      (attach_image_button 100 9 70 2 none 2 true stC9 []).2 = none ∧
    matchIncoming 150 9 2 1 none
      (attach_image_button 100 9 70 2 none 2 true stC9 []).2 = some 70 := by
  decide

/-- C9 (amended): when an authorized requester (the author or a
moderator) presses Attach Image in the configured suggestion channel,
the registered PendingImageRequest stores the SUGGESTION AUTHOR
identity in its user field — so a later image matches only when posted
by the author; when the requester is the author the two coincide and
the claim holds. -/
theorem C9_pending_request_user_amended :
    ∀ (now g msgId chanId : Nat) (tit : Option Nat) (presser : Nat)
      (isMod : Bool) (st : Data) (t : PendTable) (sid : Nat) (rec : Suggestion),
      lookupA msgId st.message_to_suggestion = some sid →
      lookupA sid st.suggestions = some rec →
      (rec.user_id = presser ∨ isMod = true) →
      ((lookupA g st.guild_config).getD gcEmpty).suggestion_channel_id
        = some chanId →
      attach_image_button now g msgId chanId tit presser isMod st t
          = (.pendingSet, set_pending_image now g chanId msgId rec.user_id t) ∧
      lookupA (g, msgId)
          (attach_image_button now g msgId chanId tit presser isMod st t).2
        = some { guild_id := g, channel_id := chanId, message_id := msgId,
                 user_id := rec.user_id, created_at := now,
                 expires_at := now + pending_ttl } := by
  intro now g msgId chanId tit presser isMod st t sid rec h1 h2 h3 h4
  have hmain : attach_image_button now g msgId chanId tit presser isMod st t
      = (.pendingSet, set_pending_image now g chanId msgId rec.user_id t) := by
    unfold attach_image_button
    simp [h1, h2, h4, if_pos h3]
  refine ⟨hmain, ?_⟩
  rw [hmain]
  exact lookupA_setA_self (g, msgId) _ t

/-- C9 witness: the amended theorem applied with the author (user 1)
as the presser, where the stored identity and the requester agree. -/
theorem C9_pending_request_user_amended_witness :
    attach_image_button 100 9 70 2 none 1 false stC9 []
      = (.pendingSet, set_pending_image 100 9 2 70 1 []) ∧
    lookupA (9, 70) (attach_image_button 100 9 70 2 none 1 false stC9 []).2
      = some { guild_id := 9, channel_id := 2, message_id := 70,
               user_id := 1, created_at := 100,
               expires_at := 100 + pending_ttl } :=
  C9_pending_request_user_amended 100 9 70 2 none 1 false stC9 [] 7 s7
    rfl rfl (Or.inl rfl) rfl

/-- C7 witness: the round trip evaluated at the default state. -/
theorem C7_persist_load_roundtrip_witness :
    load_data (some (some (save_doc default_data))) = default_data :=
  C7_persist_load_roundtrip default_data
